import Mathlib

/-!
Verification development for the derive-macro transform in `src/parse.rs` of
the `bevy_egui_controls` repository.

The source is a Rust procedural macro.  We shallowly embed the three
functions of `parse.rs` — `parse_doc_comments_from_fields` (lines 12-46),
`parse_widgets_from_fields` (lines 49-84) and `expand` (lines 90-138) —
over a model of the `syn` / `proc_macro2` input data they inspect.

Modelling notes, established by tracing the source:

* Both parsing functions return lazy Rust iterators.  `expand` interpolates
  them into a single `quote!` repetition (lines 101-108), and `quote`'s
  repetition zips the interpolated iterators: each loop iteration pulls one
  element from every iterator, in their order of first appearance inside
  the repetition body (`#field_widgets` before `#field_docs`), and stops as
  soon as any pull returns `None`.  So the emitted rows are the positional
  zip of the two sequences, truncated to the shorter one.

* The widget iterator can abort the whole macro: `field.ident.clone().unwrap()`
  (line 51) aborts on a field without a name, `.expect(..)` (line 60) aborts
  when `slider` has no following token, and the `let .. else` (lines 58-63)
  aborts when the following token is not a group.  These aborts fire only if
  the zip actually pulls far enough to evaluate them.  We model the iterator
  as the list of its pulls, an element being `Except.error e` when that pull
  would abort; `assembleRows` below consumes the pulls exactly as the
  `quote!` repetition does, so nothing after a miscompiling pull is ever
  observed.

* `MacroError` names the abort sites: `missingFieldIdent` is the line-51
  unwrap, `missingSliderRange` the line-60 expect (the spec's
  MissingRequiredParameter), `sliderPropNotGroup` the line-62 abort, and
  `expectedStructOrEnum` the line-136 abort (the spec's UnsupportedShape).
-/

namespace BevyEguiControls

/-- Delimiter of a `proc_macro2` token group. -/
inductive Delim
  | paren
  | bracket
  | brace
  | invisible

/-- A `proc_macro2::TokenTree`, as far as `parse.rs` inspects it. -/
inductive TokenTree
  | ident (s : String)
  | group (d : Delim) (stream : List TokenTree)
  | lit (s : String)
  | punct (c : Char)

/-- The value of a `syn::MetaNameValue`, restricted to the shape the code
looks at: either a string-literal expression, carried as the raw token text
`lit_str.token().to_string()` (quotes included), or anything else. -/
inductive AttrValue
  | strLit (rawToken : String)
  | other

/-- A `syn::Meta` attribute body.  `nameValue` keeps the path as its segment
identifiers because line 19 iterates `path.segments`; `list` keeps the path
as its rendered string because line 54 compares
`path.into_token_stream().to_string()` with `"control"` (a multi-segment
path renders with `" :: "` separators and so never equals `"control"`). -/
inductive Meta
  | nameValue (pathSegments : List String) (value : AttrValue)
  | list (pathRendered : String) (tokens : List TokenTree)
  | pathOnly (rendered : String)

/-- A `syn::Field`: its optional name and its attributes in source order. -/
structure Field where
  ident : Option String
  attrs : List Meta

/-- `syn::Fields`: named fields, unnamed (tuple) fields, or a unit shape. -/
inductive Fields
  | named (fs : List Field)
  | unnamed (fs : List Field)
  | unit

/-- `fields.iter()`: the field list underlying each `Fields` shape. -/
def Fields.toList : Fields → List Field
  | Fields.named fs => fs
  | Fields.unnamed fs => fs
  | Fields.unit => []

/-- `syn::Data`: `expand` matches `Struct`, `Enum` and leaves the remaining
shape (`Union`) to the catch-all abort arm.  The enum's variant list is
carried for completeness; lines 116-135 never read it (iteration is deferred
to `strum::IntoEnumIterator` in the generated code). -/
inductive Data
  | struct (fields : Fields)
  | enum (variants : List String)
  | union

/-- `syn::DeriveInput`: the annotated type's name and its data shape. -/
structure DeriveInput where
  ident : String
  data : Data

/-- The double-quote character `'"'` (code point 34), the quote artifact
stripped by lines 27-32. -/
def dquoteChar : Char := Char.ofNat 34

/-- Rust `str::trim` on the character list of a string: drop whitespace from
both ends (line 34's `.trim()`). -/
def trimChars (cs : List Char) : List Char :=
  ((cs.dropWhile Char.isWhitespace).reverse.dropWhile Char.isWhitespace).reverse

/-- Lines 26-34: `strip_prefix('"')`, then `strip_suffix('"')`, then
`trim()` applied to one raw string-literal token. -/
def processDocToken (raw : String) : String :=
  let cs0 := raw.data
  let cs1 :=
    match cs0 with
    | c :: rest => if c = dquoteChar then rest else cs0
    | [] => cs0
  let cs2 :=
    match cs1.reverse with
    | c :: rest => if c = dquoteChar then rest.reverse else cs1
    | [] => cs1
  String.mk (trimChars cs2)

/-- Lines 17-39: the doc strings one attribute pushes onto `doc_comments`.
For a name-value attribute whose value is a string literal, one processed
copy of the token is pushed per path segment whose identifier is `doc`
(line 19 iterates all segments); any other attribute pushes nothing. -/
def docStringsOfAttr : Meta → List String
  | Meta.nameValue segs (AttrValue.strLit tok) =>
      (segs.filter (fun s => s == "doc")).map (fun _ => processDocToken tok)
  | _ => []

/-- The `doc_comments` vector accumulated over a field's attributes in
order (the `for_each` of line 17). -/
def docCommentsOfAttrs : List Meta → List String
  | [] => []
  | a :: rest => docStringsOfAttr a ++ docCommentsOfAttrs rest

/-- Lines 12-46, body of the per-field closure: the single display string
for one field. -/
def parse_doc_comment_of_field (f : Field) : String :=
  let doc_comments := docCommentsOfAttrs f.attrs
  if doc_comments.isEmpty then "No doc comment found"
  else String.intercalate " " doc_comments

/-- `parse_doc_comments_from_fields` (lines 12-46): one description string
per field, in declaration order, no drops. -/
def parse_doc_comments_from_fields (fields : Fields) : List String :=
  fields.toList.map parse_doc_comment_of_field

/-- The abort sites of the macro; see the module comment for the line-level
correspondence. -/
inductive MacroError
  | missingFieldIdent
  | missingSliderRange
  | sliderPropNotGroup
  | expectedStructOrEnum

/-- The widget-construction expressions the macro can emit (lines 65-75):
`Slider::new(&mut self.name, range-stream)` with the range tokens verbatim,
`TextEdit::singleline(&mut self.name).hint_text("")`, and
`Checkbox::without_text(&mut self.name)` (no label text argument). -/
inductive Widget
  | slider (fieldName : String) (range : List TokenTree)
  | textbox (fieldName : String)
  | checkbox (fieldName : String)

/-- Lines 52-82, the `filter_map` closure over one attribute: `none` when
the attribute yields nothing, `some (Except.ok w)` when it yields widget
`w`, and `some (Except.error e)` when evaluating it aborts the macro.
Tracing the source: only a `Meta::List` whose rendered path is `control` is
considered; if its first token is not an identifier the closure falls
through to `None` (line 81) — silently, with no abort; identifier `slider`
demands a following group token (abort `missingSliderRange` if there is no
next token, `sliderPropNotGroup` if it is not a group); `textbox` and
`bool` need no parameters; any other identifier returns `None` (line 77). -/
def attrWidget (name : String) : Meta → Option (Except MacroError Widget)
  | Meta.list path tokens =>
    if path = "control" then
      match tokens with
      | TokenTree.ident id :: rest =>
        if id = "slider" then
          match rest with
          | TokenTree.group _ stream :: _ => some (Except.ok (Widget.slider name stream))
          | [] => some (Except.error MacroError.missingSliderRange)
          | _ :: _ => some (Except.error MacroError.sliderPropNotGroup)
        else if id = "textbox" then some (Except.ok (Widget.textbox name))
        else if id = "bool" then some (Except.ok (Widget.checkbox name))
        else none
      | _ => none
    else none
  | _ => none

/-- Lines 50-52: the pulls one field contributes to the widget iterator.
`field.ident.clone().unwrap()` aborts before any attribute is looked at
when the field has no name; otherwise the field contributes one pull per
attribute the `filter_map` keeps.  Pulls after an erroring pull are never
reached in the real iterator; `assembleRows` never looks past an error, so
listing them is harmless. -/
def fieldWidgetStream (f : Field) : List (Except MacroError Widget) :=
  match f.ident with
  | none => [Except.error MacroError.missingFieldIdent]
  | some name => f.attrs.filterMap (attrWidget name)

/-- The `flat_map` of line 50: fields' pulls concatenated in declaration
order. -/
def widgetStreamList : List Field → List (Except MacroError Widget)
  | [] => []
  | f :: fs => fieldWidgetStream f ++ widgetStreamList fs

/-- `parse_widgets_from_fields` (lines 49-84) as the list of its pulls. -/
def parse_widgets_from_fields (fields : Fields) : List (Except MacroError Widget) :=
  widgetStreamList fields.toList

/-- The `quote!` repetition of lines 101-108 consuming the two iterators:
each iteration pulls a widget first (`#field_widgets` appears first in the
repetition body), breaking when the pull returns `None`, aborting when the
pull aborts, then pulls a description, breaking when that returns `None`,
and otherwise emits the row.  The result is the emitted row list or the
abort that fired. -/
def assembleRows :
    List (Except MacroError Widget) → List String →
      Except MacroError (List (Widget × String))
  | [], _ => Except.ok []
  | Except.error e :: _, _ => Except.error e
  | Except.ok _ :: _, [] => Except.ok []
  | Except.ok w :: ws, d :: ds =>
      (assembleRows ws ds).map (fun rows => (w, d) :: rows)

/-- The generation plan `expand` emits: for a struct, the `impl`'s `ui`
method rendering one `(widget, description)` row per repetition step; for
an enum, the `ui` method rendering a single selector that defers variant
iteration to `strum`. -/
inductive GenerationPlan
  | formPlan (structName : String) (rows : List (Widget × String))
  | selectorPlan (enumName : String)

/-- `expand` (lines 90-138): dispatch on the data shape.  `Data::Struct`
(lines 92-115) assembles the rows — note a tuple struct is still
`Data::Struct`, so it takes this branch; `Data::Enum` (lines 116-135)
emits the selector without touching the variants; the remaining shape
(a union) hits the line-136 abort. -/
def expand (input : DeriveInput) : Except MacroError GenerationPlan :=
  match input.data with
  | Data.struct fields =>
      (assembleRows (parse_widgets_from_fields fields)
          (parse_doc_comments_from_fields fields)).map
        (fun rows => GenerationPlan.formPlan input.ident rows)
  | Data.enum _ => Except.ok (GenerationPlan.selectorPlan input.ident)
  | Data.union => Except.error MacroError.expectedStructOrEnum

/-- The loop body of lines 125-127 in the generated enum `ui` method: given
the variant sequence supplied by the external iteration capability and the
external display form, one `selectable_value(self, variant, format!("{}",
variant))` call per variant, in the supplied order. -/
def enum_ui_calls {V : Type} (variantIter : List V) (display : V → String) :
    List (V × String) :=
  variantIter.map (fun v => (v, display v))

/-- Modelled from the spec (§4.1), for the refinement claim C3: strip a
single leading and a single trailing quote character if present, then trim
surrounding whitespace. -/
def specProcessFragment (s : String) : String :=
  let afterLeading :=
    match s.data with
    | c :: rest => if c = dquoteChar then rest else s.data
    | [] => s.data
  let afterTrailing :=
    match afterLeading.reverse with
    | c :: rest => if c = dquoteChar then rest.reverse else afterLeading
    | [] => afterLeading
  String.mk (trimChars afterTrailing)

/-- Modelled from the spec (§4.1), for the refinement claim C3: empty
fragment sequence gives the literal fallback, otherwise the processed
fragments joined in order with a single space. -/
def specDocDisplay (frags : List String) : String :=
  if frags = [] then "No doc comment found"
  else String.intercalate " " (frags.map specProcessFragment)

/-- The raw string-literal tokens one attribute contributes to the field's
documentation-fragment sequence (the tokens line 26 starts from, before any
processing). -/
def docFragmentsOfAttr : Meta → List String
  | Meta.nameValue segs (AttrValue.strLit tok) =>
      (segs.filter (fun s => s == "doc")).map (fun _ => tok)
  | _ => []

/-- The raw fragments of a list of attributes, in order. -/
def docFragmentsOfAttrs : List Meta → List String
  | [] => []
  | a :: rest => docFragmentsOfAttr a ++ docFragmentsOfAttrs rest

/-- A field's documentation-fragment sequence: the raw tokens of its doc
attributes in source order. -/
def doc_fragments_of_field (f : Field) : List String :=
  docFragmentsOfAttrs f.attrs

/-- A doc attribute carrying the raw token of one doc line. -/
def docAttr (tok : String) : Meta :=
  Meta.nameValue ["doc"] (AttrValue.strLit tok)

/-- A `#[control(...)]` attribute with the given argument tokens. -/
def controlAttr (tokens : List TokenTree) : Meta :=
  Meta.list "control" tokens

/-- Example: field `a`, documented `alpha`, no control attribute. -/
def exFieldA : Field :=
  ⟨some "a", [docAttr "\"alpha\""]⟩

/-- Example: field `b`, documented `beta`, annotated `control(bool)`. -/
def exFieldB : Field :=
  ⟨some "b", [docAttr "\"beta\"", controlAttr [TokenTree.ident "bool"]]⟩

/-- Example record `[a (no control), b (control(bool))]` from the spec's
positional-zip hazard. -/
def exMixed : DeriveInput :=
  ⟨"S", Data.struct (Fields.named [exFieldA, exFieldB])⟩

/-- Example: one field whose third control attribute is a rangeless
`slider`, preceded by two recognized `bool` annotations. -/
def c2cex : DeriveInput :=
  ⟨"S", Data.struct (Fields.named
    [⟨some "a", [controlAttr [TokenTree.ident "bool"],
                 controlAttr [TokenTree.ident "bool"],
                 controlAttr [TokenTree.ident "slider"]]⟩])⟩

/-- Example: one field whose control argument list starts with a literal
token instead of an identifier. -/
def c4cex : DeriveInput :=
  ⟨"S", Data.struct (Fields.named
    [⟨some "a", [controlAttr [TokenTree.lit "5"]]⟩])⟩

/-- Example: one field annotated with the unrecognized kind `dropdown`. -/
def c6ex : DeriveInput :=
  ⟨"S", Data.struct (Fields.named
    [⟨some "a", [controlAttr [TokenTree.ident "dropdown"]]⟩])⟩

/-- Example record whose only field is `exFieldB`, so indices align. -/
def c8aligned : DeriveInput :=
  ⟨"S", Data.struct (Fields.named [exFieldB])⟩

/-- Example: field `a` carries two recognized control annotations, field
`b` one; used for the multiplicity claim. -/
def exMulti : DeriveInput :=
  ⟨"S", Data.struct (Fields.named
    [⟨some "a", [docAttr "\"alpha\"",
                 controlAttr [TokenTree.ident "bool"],
                 controlAttr [TokenTree.ident "textbox"]]⟩,
     ⟨some "b", [docAttr "\"beta\"",
                 controlAttr [TokenTree.ident "bool"]]⟩])⟩

/-- Helper: an all-ok widget stream zips against the descriptions. -/
theorem assembleRows_map_ok :
    ∀ (W : List Widget) (D : List String),
      assembleRows (W.map Except.ok) D = Except.ok (W.zip D)
  | [], _ => rfl
  | _ :: _, [] => rfl
  | w :: ws, d :: ds => by
      simp [assembleRows, assembleRows_map_ok ws ds, Except.map]

/-- Helper: an erroring pull aborts assembly whenever the zip reaches it,
which it does as soon as the successful pulls before it do not already
exhaust the description sequence. -/
theorem assembleRows_oks_error :
    ∀ (W : List Widget) (D : List String) (e : MacroError)
      (rest : List (Except MacroError Widget)),
      W.length ≤ D.length →
      assembleRows (W.map Except.ok ++ Except.error e :: rest) D = Except.error e
  | [], _, _, _, _ => rfl
  | w :: ws, D, e, rest, h => by
      cases D with
      | nil => exact absurd h (by simp)
      | cons d ds =>
          have h' : ws.length ≤ ds.length := by
            simpa using Nat.le_of_succ_le_succ (by simpa using h)
          simp [assembleRows, assembleRows_oks_error ws ds e rest h', Except.map]

/-- Helper: the length of a zip is the minimum of the lengths. -/
theorem zip_length_min {α β : Type} :
    ∀ (as : List α) (bs : List β), (as.zip bs).length = min as.length bs.length
  | [], _ => by simp
  | _ :: _, [] => by simp
  | a :: as, b :: bs => by
      simp [zip_length_min as bs, Nat.succ_min_succ]

/-- Helper: the zip pairs the elements at equal indices. -/
theorem zip_get?_eq_some {α β : Type} :
    ∀ (as : List α) (bs : List β) (i : Nat) (a : α) (b : β),
      as.get? i = some a → bs.get? i = some b →
      (as.zip bs).get? i = some (a, b)
  | [], _, i, _, _, h, _ => by simp at h
  | _ :: _, [], i, _, _, _, h => by simp at h
  | a' :: as, b' :: bs, 0, a, b, h1, h2 => by
      simp at h1 h2
      simp [h1, h2]
  | a' :: as, b' :: bs, i + 1, a, b, h1, h2 => by
      simpa using zip_get?_eq_some as bs i a b (by simpa using h1) (by simpa using h2)

/-- Claim C1: the Form Assembler pairs widgets and descriptions positionally
by index — when the widget pulls are the widget list `W` with no abort, the
plan's rows are `W` zipped with the description list `D`, so there are
exactly `min (len W) (len D)` rows and row `i` is `(W i, D i)`; in
particular, on the record `[a (no control), b (control(bool))]` the single
row pairs `b`'s checkbox with `a`'s description `"alpha"`. -/
theorem c1_positional_zip :
    (∀ (name : String) (fields : Fields) (W : List Widget),
        parse_widgets_from_fields fields = W.map Except.ok →
        expand ⟨name, Data.struct fields⟩ =
          Except.ok (GenerationPlan.formPlan name
            (W.zip (parse_doc_comments_from_fields fields))) ∧
        (W.zip (parse_doc_comments_from_fields fields)).length =
          min W.length (parse_doc_comments_from_fields fields).length ∧
        (∀ (i : Nat) (w : Widget) (d : String),
            W.get? i = some w →
            (parse_doc_comments_from_fields fields).get? i = some d →
            (W.zip (parse_doc_comments_from_fields fields)).get? i = some (w, d))) ∧
    expand exMixed =
      Except.ok (GenerationPlan.formPlan "S" [(Widget.checkbox "b", "alpha")]) := by
  constructor
  · intro name fields W h
    refine ⟨?_, zip_length_min W _, fun i w d h1 h2 => zip_get?_eq_some W _ i w d h1 h2⟩
    simp [expand, h, assembleRows_map_ok, Except.map]
  · rfl

/-- Witness for C1 at a concrete record: one field `x` annotated
`control(textbox)` and carrying no doc comment. -/
theorem c1_positional_zip_witness :
    expand ⟨"T", Data.struct (Fields.named
        [⟨some "x", [controlAttr [TokenTree.ident "textbox"]]⟩])⟩ =
      Except.ok (GenerationPlan.formPlan "T"
        [(Widget.textbox "x", "No doc comment found")]) := by
  have h := (c1_positional_zip.1 "T"
    (Fields.named [⟨some "x", [controlAttr [TokenTree.ident "textbox"]]⟩])
    [Widget.textbox "x"] rfl).1
  exact h.trans rfl

/-- Claim C2 counterexample: `c2cex` has a field whose `control` annotation
has first token `slider` and no following token group, yet the generation
pass does not abort — the zip exhausts the single description first, the
defective third pull is never evaluated, and a plan is produced. -/
theorem c2_slider_missing_range_cex :
    expand c2cex =
      Except.ok (GenerationPlan.formPlan "S"
        [(Widget.checkbox "a", "No doc comment found")]) := rfl

/-- Claim C2 as amended: a rangeless `slider` annotation aborts the pass
with `missingSliderRange` (MissingRequiredParameter) provided the number of
widgets pulled before it does not exceed the number of fields — in
particular always when every field carries at most one control annotation.
Otherwise the defective annotation is never reached and a plan is emitted
without it. -/
theorem c2_slider_missing_range_amended :
    ∀ (name : String) (fields : Fields) (W : List Widget)
      (rest : List (Except MacroError Widget)),
      parse_widgets_from_fields fields =
        W.map Except.ok ++ Except.error MacroError.missingSliderRange :: rest →
      W.length ≤ (parse_doc_comments_from_fields fields).length →
      expand ⟨name, Data.struct fields⟩ =
        Except.error MacroError.missingSliderRange := by
  intro name fields W rest h hlen
  simp [expand, h,
    assembleRows_oks_error W (parse_doc_comments_from_fields fields)
      MacroError.missingSliderRange rest hlen, Except.map]

/-- Witness for the amended C2: a single field annotated `control(slider)`
with no range aborts the pass. -/
theorem c2_slider_missing_range_amended_witness :
    expand ⟨"S", Data.struct (Fields.named
        [⟨some "a", [controlAttr [TokenTree.ident "slider"]]⟩])⟩ =
      Except.error MacroError.missingSliderRange :=
  c2_slider_missing_range_amended "S"
    (Fields.named [⟨some "a", [controlAttr [TokenTree.ident "slider"]]⟩])
    [] [] rfl (Nat.zero_le _)

/-- Helper for C3: per attribute, the pushed doc strings are the raw
fragments mapped through the spec's fragment processing. -/
theorem docStringsOfAttr_eq_map (m : Meta) :
    docStringsOfAttr m = (docFragmentsOfAttr m).map specProcessFragment := by
  cases m with
  | nameValue segs value =>
      cases value with
      | strLit tok =>
          simp only [docStringsOfAttr, docFragmentsOfAttr, List.map_map]
          rfl
      | other => rfl
  | list p tokens => rfl
  | pathOnly p => rfl

/-- Helper for C3, lifted over an attribute list. -/
theorem docCommentsOfAttrs_eq_map :
    ∀ (attrs : List Meta),
      docCommentsOfAttrs attrs = (docFragmentsOfAttrs attrs).map specProcessFragment
  | [] => rfl
  | a :: rest => by
      simp [docCommentsOfAttrs, docFragmentsOfAttrs, docStringsOfAttr_eq_map a,
        docCommentsOfAttrs_eq_map rest]

/-- Claim C3: for every field, the Documentation Extractor's output equals
the spec's reference definition — the fallback string on an empty fragment
sequence, otherwise each raw fragment quote-stripped and trimmed
independently, joined in order with single spaces. -/
theorem c3_doc_extractor_refines_spec (f : Field) :
    parse_doc_comment_of_field f = specDocDisplay (doc_fragments_of_field f) := by
  unfold parse_doc_comment_of_field specDocDisplay doc_fragments_of_field
  rw [docCommentsOfAttrs_eq_map f.attrs]
  cases h : docFragmentsOfAttrs f.attrs with
  | nil => simp
  | cons a as => simp

/-- Claim C4 counterexample: `c4cex`'s only field carries a `control`
annotation whose argument list starts with a literal token, yet the
transform does not abort — it produces an (empty-rowed) plan. -/
theorem c4_malformed_control_cex :
    expand c4cex = Except.ok (GenerationPlan.formPlan "S" []) := rfl

/-- Claim C4 as amended: a `control` annotation whose argument list does
not begin with an identifier token is silently treated as "no widget" —
the resolver yields nothing for it and raises no abort, so the transform
continues. -/
theorem c4_malformed_control_amended :
    ∀ (name : String) (tokens : List TokenTree),
      (∀ (s : String) (rest : List TokenTree), tokens ≠ TokenTree.ident s :: rest) →
      attrWidget name (Meta.list "control" tokens) = none := by
  intro name tokens h
  cases tokens with
  | nil => rfl
  | cons t ts =>
      cases t with
      | ident s => exact absurd rfl (h s ts)
      | group d stream => rfl
      | lit s => rfl
      | punct c => rfl

/-- Witness for the amended C4 at a literal first token. -/
theorem c4_malformed_control_amended_witness :
    attrWidget "a" (Meta.list "control" [TokenTree.lit "5"]) = none :=
  c4_malformed_control_amended "a" [TokenTree.lit "5"]
    (fun s rest h => by injection h with h1 h2; exact TokenTree.noConfusion h1)

/-- Claim C5 counterexample: a tuple-like type (one unnamed field) aborts
with `missingFieldIdent`, not with `expectedStructOrEnum` (UnsupportedShape);
and a fieldless unit type does not abort at all — it yields an empty plan. -/
theorem c5_unsupported_shape_cex :
    expand ⟨"S", Data.struct (Fields.unnamed [⟨none, []⟩])⟩ =
      Except.error MacroError.missingFieldIdent ∧
    expand ⟨"U", Data.struct Fields.unit⟩ =
      Except.ok (GenerationPlan.formPlan "U" []) :=
  ⟨rfl, rfl⟩

/-- Claim C5 as amended: only a union shape aborts with
`expectedStructOrEnum` (UnsupportedShape).  A tuple-like type is processed
by the record branch: with at least one (unnamed) field it aborts fatally
but with the missing-field-identifier abort, and a unit type produces an
empty plan without error. -/
theorem c5_unsupported_shape_amended :
    (∀ name : String,
        expand ⟨name, Data.union⟩ = Except.error MacroError.expectedStructOrEnum) ∧
    (∀ (name : String) (f : Field) (fs : List Field),
        f.ident = none →
        expand ⟨name, Data.struct (Fields.unnamed (f :: fs))⟩ =
          Except.error MacroError.missingFieldIdent) ∧
    (∀ name : String,
        expand ⟨name, Data.struct Fields.unit⟩ =
          Except.ok (GenerationPlan.formPlan name [])) := by
  refine ⟨fun name => rfl, ?_, fun name => rfl⟩
  intro name f fs h
  simp [expand, parse_widgets_from_fields, Fields.toList, widgetStreamList,
    fieldWidgetStream, h, assembleRows, Except.map]

/-- Witness for the amended C5 at a one-field tuple struct. -/
theorem c5_unsupported_shape_amended_witness :
    expand ⟨"S", Data.struct (Fields.unnamed [⟨none, [docAttr "\"x\""]⟩])⟩ =
      Except.error MacroError.missingFieldIdent :=
  c5_unsupported_shape_amended.2.1 "S" ⟨none, [docAttr "\"x\""]⟩ [] rfl

/-- Claim C6: an unrecognized kind tag (first identifier outside
`{slider, textbox, bool}`) yields "no widget" silently — the resolver
returns nothing and no abort — and the pass completes; concretely, a record
whose only annotation is `control(dropdown)` yields an empty-rowed plan. -/
theorem c6_unrecognized_kind_silent :
    (∀ (name id : String) (rest : List TokenTree),
        id ≠ "slider" → id ≠ "textbox" → id ≠ "bool" →
        attrWidget name (Meta.list "control" (TokenTree.ident id :: rest)) = none) ∧
    expand c6ex = Except.ok (GenerationPlan.formPlan "S" []) := by
  refine ⟨?_, rfl⟩
  intro name id rest h1 h2 h3
  simp [attrWidget, h1, h2, h3]

/-- Witness for C6 at the unrecognized tag `dropdown`. -/
theorem c6_unrecognized_kind_silent_witness :
    attrWidget "speed" (Meta.list "control" [TokenTree.ident "dropdown"]) = none :=
  c6_unrecognized_kind_silent.1 "speed" "dropdown" []
    (by decide) (by decide) (by decide)

/-- Claim C7: `control(slider(R))` with a present range token group `R`
produces a slider widget bound to the field's name and carrying the range
token stream `R` verbatim — for every field name, delimiter, range stream
and trailing tokens; likewise through the whole widget pass for a field so
annotated. -/
theorem c7_slider_verbatim_range :
    ∀ (name : String) (d : Delim) (range rest : List TokenTree),
      attrWidget name (Meta.list "control"
          (TokenTree.ident "slider" :: TokenTree.group d range :: rest)) =
        some (Except.ok (Widget.slider name range)) ∧
      parse_widgets_from_fields (Fields.named
          [⟨some name, [controlAttr [TokenTree.ident "slider", TokenTree.group d range]]⟩]) =
        [Except.ok (Widget.slider name range)] := by
  intro name d range rest
  exact ⟨rfl, rfl⟩

/-- Claim C8 counterexample: on the record `[a (doc "alpha", no control),
b (doc "beta", control(bool))]`, `b`'s checkbox row carries the trailing
label `"alpha"`, while `b`'s own description is `"beta"` — the row label is
not the annotated field's description. -/
theorem c8_checkbox_label_cex :
    expand exMixed =
      Except.ok (GenerationPlan.formPlan "S" [(Widget.checkbox "b", "alpha")]) ∧
    parse_doc_comment_of_field exFieldB = "beta" :=
  ⟨rfl, rfl⟩

/-- Claim C8 as amended: `control(bool)` produces a checkbox bound to the
field with no inline label text (the `Widget.checkbox` expression carries
no text argument); the row's trailing label is supplied separately by the
assembler from the positional description sequence — it is the field's own
description when the indices align (e.g. a record whose fields all carry
recognized annotations), but can be another field's description after a
drop. -/
theorem c8_checkbox_no_inline_label_amended :
    (∀ (name : String) (rest : List TokenTree),
        attrWidget name (Meta.list "control" (TokenTree.ident "bool" :: rest)) =
          some (Except.ok (Widget.checkbox name))) ∧
    expand c8aligned =
      Except.ok (GenerationPlan.formPlan "S" [(Widget.checkbox "b", "beta")]) :=
  ⟨fun name rest => rfl, rfl⟩

/-- Claim C9: an enumerated type's plan is exactly the single selector
(never a row plan), and the generated selector body iterates the externally
supplied variant sequence in its given order, offering each variant as a
choice labeled by its own display form. -/
theorem c9_enum_selector :
    (∀ (name : String) (variants : List String),
        expand ⟨name, Data.enum variants⟩ =
          Except.ok (GenerationPlan.selectorPlan name)) ∧
    (∀ (V : Type) (variantIter : List V) (display : V → String),
        (enum_ui_calls variantIter display).length = variantIter.length ∧
        ∀ (i : Nat) (v : V), variantIter.get? i = some v →
          (enum_ui_calls variantIter display).get? i = some (v, display v)) := by
  refine ⟨fun name variants => rfl, ?_⟩
  intro V variantIter display
  refine ⟨by simp [enum_ui_calls], ?_⟩
  intro i v h
  show (variantIter.map (fun v => (v, display v))).get? i = some (v, display v)
  rw [List.get?_map, h]
  rfl

/-- Witness for C9 on the variant list `[Low, Medium, High]`: the second
selector call offers `Medium` labeled by its display form. -/
theorem c9_enum_selector_witness :
    (enum_ui_calls ["Low", "Medium", "High"] (fun v => v)).get? 1 =
      some ("Medium", "Medium") :=
  (c9_enum_selector.2 String ["Low", "Medium", "High"] (fun v => v)).2 1 "Medium" rfl

/-- Claim C10: a field carrying several recognized `control` annotations
contributes one widget per annotation, concatenated in order — and on
`exMulti` this desynchronizes the pairing: field `a`'s two widgets absorb
both descriptions, `a`'s second widget is paired with `b`'s description,
and `b`'s own widget is dropped by the zip. -/
theorem c10_multiple_controls_per_field :
    (∀ name : String,
        fieldWidgetStream ⟨some name,
            [controlAttr [TokenTree.ident "bool"],
             controlAttr [TokenTree.ident "textbox"]]⟩ =
          [Except.ok (Widget.checkbox name), Except.ok (Widget.textbox name)]) ∧
    expand exMulti =
      Except.ok (GenerationPlan.formPlan "S"
        [(Widget.checkbox "a", "alpha"), (Widget.textbox "a", "beta")]) :=
  ⟨fun name => rfl, rfl⟩

end BevyEguiControls
